import Mathlib

/-!
Shallow embedding of the EcoCare Spoof App core (src/main.py).

The Python program keeps a mutable list `self.devices` of dicts and a channel
flag `self.connected`, and mutates them from three sources: local table edits
(`handle_cell_change`), inbound remote snapshots (`receive_connected_iot_devices`)
and inbound remote updates (`receive_iot_device_update`).  Outbound traffic goes
through `self.sio.emit`; we record every emit call in a `List OutEvent` trace.

JSON values (the results of `json.loads`) are embedded as the inductive `JValue`;
numeric literals are modelled as `Int` (no claim depends on non-integral numbers).
Python dicts are embedded as ordered association lists with unique keys, which is
what `json.loads` produces.  A device record as stored in the registry carries the
seven fields of the CSV bulk-load format (section 6 of the design document), with
`connected` already coerced to a boolean; the wire form of a device (after
`device.copy()` followed by `del device["connected"]`) is `WireDevice`.
-/

inductive JValue where
  | str (s : String)
  | num (n : Int)
  | bool (b : Bool)
  | null
  | arr (items : List JValue)
  | obj (fields : List (String × JValue))

/-- Dict lookup `fields[key]` on an embedded JSON object: first binding wins
(json.loads never produces duplicate keys). -/
def lookupField : List (String × JValue) → String → Option JValue
  | [], _ => none
  | p :: rest, key => if p.1 == key then some p.2 else lookupField rest key

/-- Dict assignment `fields[key] = v` for a key already present. -/
def setField (fields : List (String × JValue)) (key : String) (v : JValue) :
    List (String × JValue) :=
  fields.map (fun p => if p.1 == key then (p.1, v) else p)

def isStringJ : JValue → Bool
  | .str _ => true
  | _ => false

/-- The `oneOf string / number / boolean` alternative of the `value` property in
DEVICE_STATE_SCHEMA (the three JSON-Schema types are mutually exclusive, so
`oneOf` coincides with plain membership). -/
def isPrimJ : JValue → Bool
  | .str _ => true
  | .num _ => true
  | .bool _ => true
  | _ => false

def isBoolJ : JValue → Bool
  | .bool _ => true
  | _ => false

/-- One item of DEVICE_STATE_SCHEMA: a JSON object whose three required
properties `fieldName`, `datatype`, `value` are present and well-typed.
JSON Schema `properties` does not forbid additional members, so extra keys
are accepted. -/
def validEntry (e : JValue) : Bool :=
  match e with
  | .obj fields =>
      (match lookupField fields "fieldName" with
       | some v => isStringJ v
       | none => false) &&
      (match lookupField fields "datatype" with
       | some v => isStringJ v
       | none => false) &&
      (match lookupField fields "value" with
       | some v => isPrimJ v
       | none => false)
  | _ => false

/-- Embedding of `jsonschema.validate(candidate, DEVICE_STATE_SCHEMA)` as a boolean: the
candidate must be an array, every item of which satisfies `validEntry`. -/
def validateDeviceState (candidate : JValue) : Bool :=
  match candidate with
  | .arr items => items.all validEntry
  | _ => false

/-- Python truthiness, as used by `bool(entry["value"])` in
`read_unconnected_iot_devices`. -/
def truthy : JValue → Bool
  | .str s => !s.isEmpty
  | .num n => n != 0
  | .bool b => b
  | .null => false
  | .arr items => !items.isEmpty
  | .obj fields => !fields.isEmpty

def isBooleanDatatype (fields : List (String × JValue)) : Bool :=
  match lookupField fields "datatype" with
  | some (.str s) => s == "boolean"
  | _ => false

/-- The per-entry body of the coercion loop in `read_unconnected_iot_devices`:
if `entry["datatype"] == "boolean"` then `entry["value"] = bool(entry["value"])`.
(When the entry has no `value` key the Python code raises KeyError at startup;
that branch is left as the identity and is excluded by hypothesis where used.) -/
def coerceStateEntry (e : JValue) : JValue :=
  match e with
  | .obj fields =>
      if isBooleanDatatype fields then
        match lookupField fields "value" with
        | some v => .obj (setField fields "value" (.bool (truthy v)))
        | none => .obj fields
      else .obj fields
  | e => e

/-- The whole coercion loop `for entry in device["state"]` applied to the parsed
state column. -/
def coerceState (v : JValue) : JValue :=
  match v with
  | .arr items => .arr (items.map coerceStateEntry)
  | v => v

/-- A device record as stored in `self.devices`. -/
structure Device where
  ipAddress : String
  name : String
  description : String
  state : JValue
  status : String
  faultStatus : String
  connected : Bool

/-- One row of the CSV bulk-load file after the state column has been parsed by
`json.loads`; `connected` is still the raw CSV text. -/
structure CsvRow where
  ipAddress : String
  name : String
  description : String
  state : JValue
  connected : String
  status : String
  faultStatus : String

/-- The per-row work of `read_unconnected_iot_devices`: parse completed, coerce
`connected` with `== "true"` and boolean-typed state values with `bool(...)`. -/
def readDevice (r : CsvRow) : Device :=
  { ipAddress := r.ipAddress
    name := r.name
    description := r.description
    state := coerceState r.state
    status := r.status
    faultStatus := r.faultStatus
    connected := r.connected == "true" }

def readUnconnectedIotDevices (rows : List CsvRow) : List Device :=
  rows.map readDevice

/-- A device as published on the channel: `device.copy()` followed by
`del device["connected"]` leaves exactly these six fields, so the wire record
has no `connected` field at all. -/
structure WireDevice where
  ipAddress : String
  name : String
  description : String
  state : JValue
  status : String
  faultStatus : String

def stripConnected (d : Device) : WireDevice :=
  { ipAddress := d.ipAddress
    name := d.name
    description := d.description
    state := d.state
    status := d.status
    faultStatus := d.faultStatus }

/-- The two outbound channel events the app ever emits. -/
inductive OutEvent where
  | unconnectedIotDevices (data : List WireDevice)
  | spoofAppIotDeviceUpdate (data : WireDevice)

/-- The mutable state of the app: the registry list and the channel flag. -/
structure AppState where
  devices : List Device
  connected : Bool

/-- Embedding of `search_devices`: linear scan returning the first device whose `ipAddress`
matches (the handle is mutated in place in Python; here callers rebuild the
list at the matching position). -/
def searchDevices (devices : List Device) (ip : String) : Option Device :=
  devices.find? (fun d => d.ipAddress == ip)

/-- Embedding of `send_iot_device_update`: drop the publication when the device itself is not
marked connected, otherwise emit the stripped copy.  Note the source consults
only `device["connected"]`, never the channel flag `self.connected`. -/
def sendIotDeviceUpdate (device : Device) : List OutEvent :=
  if !device.connected then []
  else [.spoofAppIotDeviceUpdate (stripConnected device)]

/-- Wrapper for `send_iot_device_update` at app level: the registry is only read. -/
def sendIotDeviceUpdateApp (s : AppState) (device : Device) : AppState × List OutEvent :=
  (s, sendIotDeviceUpdate device)

/-- The list comprehension plus `del` loop of `send_unconnected_iot_devices`:
copies of the devices with `connected == False`, each with the `connected` key
deleted. -/
def snapshotUnconnected (devices : List Device) : List WireDevice :=
  (devices.filter (fun d => !d.connected)).map stripConnected

/-- Embedding of `send_unconnected_iot_devices`: returns early when the channel flag is
down, otherwise emits the bulk announcement; the registry is never written. -/
def sendUnconnectedIotDevices (s : AppState) : AppState × List OutEvent :=
  if !s.connected then (s, [])
  else (s, [.unconnectedIotDevices (snapshotUnconnected s.devices)])

/-- One iteration of the loop in `receive_connected_iot_devices`: mark the
incoming device connected, then append it unless its address is already
present.  (The Python loop sets `device["connected"] = True` before the
search; the mark does not change the searched `ipAddress`, so the search is
written directly on `incoming`.) -/
def mergeStep (devices : List Device) (incoming : Device) : List Device :=
  match searchDevices devices incoming.ipAddress with
  | some _ => devices
  | none => devices ++ [{ incoming with connected := true }]

/-- Embedding of `receive_connected_iot_devices`: fold the loop over the snapshot; the scan
of each iteration sees the appends made by earlier iterations, exactly as the
Python loop mutates `self.devices` while iterating the snapshot. -/
def receiveConnectedIotDevices (devices : List Device) (snapshot : List Device) :
    List Device :=
  snapshot.foldl mergeStep devices

/-- An inbound `server_iot_device_update` payload (section 6: address plus new
state and status). -/
structure DeviceUpdate where
  ipAddress : String
  state : JValue
  status : String

/-- The in-place mutation of `receive_iot_device_update` on the found device. -/
def applyUpdate (u : DeviceUpdate) (d : Device) : Device :=
  { d with state := u.state, status := u.status, connected := true }

/-- Embedding of `receive_iot_device_update` on the registry list: the first device with the
matching address is overwritten, everything else is untouched; if no address
matches the list is returned unchanged. -/
def receiveIotDeviceUpdate : List Device → DeviceUpdate → List Device
  | [], _ => []
  | d :: rest, u =>
      if d.ipAddress == u.ipAddress then applyUpdate u d :: rest
      else d :: receiveIotDeviceUpdate rest u

/-- Wrapper for `receive_iot_device_update` at app level: the handler body contains no
`sio.emit` call, only the registry mutation and the `update_table` UI signal,
so its outbound trace is empty by construction of the translation. -/
def receiveIotDeviceUpdateApp (s : AppState) (u : DeviceUpdate) :
    AppState × List OutEvent :=
  ({ s with devices := receiveIotDeviceUpdate s.devices u }, [])

/-- Wrapper for `receive_connected_iot_devices` at app level (no emit in the body either). -/
def receiveConnectedIotDevicesApp (s : AppState) (snapshot : List Device) :
    AppState × List OutEvent :=
  ({ s with devices := receiveConnectedIotDevices s.devices snapshot }, [])

/-- What a state-cell edit does to the registry list: overwrite the `state`
field of the first device whose address matches. -/
def setDeviceState : List Device → String → JValue → List Device
  | [], _, _ => []
  | d :: rest, ip, v =>
      if d.ipAddress == ip then { d with state := v } :: rest
      else d :: setDeviceState rest ip v

/-- Outcome of a local edit as observed at the UI boundary. -/
inductive EditResult where
  | ignored
  | accepted
  | reverted
  | raised

/-- The `case 4` (state column) branch of `handle_cell_change` for an external
edit (`self.internal_change == False`).  `parsed` is the outcome of
`json.loads(text)`: `none` when the raw text is not valid JSON, in which case
`json.JSONDecodeError` escapes the `except exceptions.ValidationError` clause
uncaught — no revert is performed (`EditResult.raised`).  When the parse
succeeds, `jsonschema.validate` either rejects (revert the cell, stop) or
accepts (mutate the device in place, then call `send_iot_device_update`). -/
def handleStateEdit (s : AppState) (ip : String) (parsed : Option JValue) :
    EditResult × AppState × List OutEvent :=
  match searchDevices s.devices ip with
  | none => (.ignored, s, [])
  | some device =>
      match parsed with
      | none => (.raised, s, [])
      | some v =>
          if validateDeviceState v then
            (.accepted,
             { s with devices := setDeviceState s.devices ip v },
             sendIotDeviceUpdate { device with state := v })
          else (.reverted, s, [])

/-- Embedding of `connect_handler` after a successful `sio.connect`: set the flag, then send
the bulk announcement. -/
def connectHandler (s : AppState) : AppState × List OutEvent :=
  sendUnconnectedIotDevices { s with connected := true }

/-- Embedding of `disconnect_handler`: clears the channel flag, never touches the registry. -/
def disconnectHandler (s : AppState) : AppState × List OutEvent :=
  if !s.connected then (s, [])
  else ({ s with connected := false }, [])

/-! Concrete sample data used by counterexamples and witnesses. -/

/-- A bulk-loaded, still-unconnected device. -/
def devHeater : Device :=
  { ipAddress := "10.0.0.5"
    name := "Heater"
    description := "hall heater"
    state := JValue.arr []
    status := "Off"
    faultStatus := "Ok"
    connected := false }

/-- A device already acknowledged by the remote side. -/
def devLamp : Device :=
  { ipAddress := "10.0.0.9"
    name := "Lamp"
    description := "desk lamp"
    state := JValue.arr []
    status := "On"
    faultStatus := "Ok"
    connected := true }

/-! Registry merge lemmas shared by several claims. -/

/-- Addresses held by the registry, in order. -/
def addrs (devices : List Device) : List String :=
  devices.map (fun d => d.ipAddress)

theorem searchDevices_eq_none_iff {devices : List Device} {ip : String} :
    searchDevices devices ip = none ↔ ∀ d ∈ devices, d.ipAddress ≠ ip := by
  unfold searchDevices
  rw [List.find?_eq_none]
  constructor
  · intro h d hd
    have := h d hd
    simpa using this
  · intro h d hd
    simpa using h d hd

theorem mem_addrs_iff {devices : List Device} {a : String} :
    a ∈ addrs devices ↔ ∃ d ∈ devices, d.ipAddress = a := by
  simp [addrs]

theorem mergeStep_of_found {devices : List Device} {d x : Device}
    (h : searchDevices devices d.ipAddress = some x) :
    mergeStep devices d = devices := by
  unfold mergeStep
  rw [h]

theorem mergeStep_of_absent {devices : List Device} {d : Device}
    (h : searchDevices devices d.ipAddress = none) :
    mergeStep devices d = devices ++ [{ d with connected := true }] := by
  unfold mergeStep
  rw [h]

theorem mergeStep_of_present {devices : List Device} {d : Device}
    (h : d.ipAddress ∈ addrs devices) : mergeStep devices d = devices := by
  cases hs : searchDevices devices d.ipAddress with
  | some _ => exact mergeStep_of_found hs
  | none =>
      obtain ⟨x, hx, hxa⟩ := mem_addrs_iff.mp h
      exact absurd hxa (searchDevices_eq_none_iff.mp hs x hx)

theorem addrs_append (l1 l2 : List Device) :
    addrs (l1 ++ l2) = addrs l1 ++ addrs l2 := by
  simp [addrs]

theorem mem_addrs_mergeStep {devices : List Device} {a : String} (d : Device)
    (h : a ∈ addrs devices) : a ∈ addrs (mergeStep devices d) := by
  cases hs : searchDevices devices d.ipAddress with
  | some x => rw [mergeStep_of_found hs]; exact h
  | none =>
      rw [mergeStep_of_absent hs, addrs_append]
      exact List.mem_append_left _ h

theorem self_mem_addrs_mergeStep (devices : List Device) (d : Device) :
    d.ipAddress ∈ addrs (mergeStep devices d) := by
  cases hs : searchDevices devices d.ipAddress with
  | some x =>
      rw [mergeStep_of_found hs]
      have hs' : devices.find? (fun y => y.ipAddress == d.ipAddress) = some x := hs
      have hx : x ∈ devices := List.mem_of_find?_eq_some hs'
      have hpa := List.find?_some hs'
      exact mem_addrs_iff.mpr ⟨x, hx, by simpa using hpa⟩
  | none =>
      rw [mergeStep_of_absent hs, addrs_append]
      simp [addrs]

theorem mem_addrs_merge {devices : List Device} {a : String} (snapshot : List Device)
    (h : a ∈ addrs devices) :
    a ∈ addrs (receiveConnectedIotDevices devices snapshot) := by
  induction snapshot generalizing devices with
  | nil => exact h
  | cons d rest ih =>
      exact ih (mem_addrs_mergeStep d h)

theorem mem_snapshot_addrs_merge {devices snapshot : List Device} {d : Device}
    (h : d ∈ snapshot) :
    d.ipAddress ∈ addrs (receiveConnectedIotDevices devices snapshot) := by
  induction snapshot generalizing devices with
  | nil => cases h
  | cons x rest ih =>
      cases h with
      | head =>
          exact mem_addrs_merge rest (self_mem_addrs_mergeStep devices d)
      | tail _ hmem =>
          exact ih hmem

theorem merge_of_all_present {devices snapshot : List Device}
    (h : ∀ d ∈ snapshot, d.ipAddress ∈ addrs devices) :
    receiveConnectedIotDevices devices snapshot = devices := by
  induction snapshot with
  | nil => rfl
  | cons d rest ih =>
      show List.foldl mergeStep (mergeStep devices d) rest = devices
      rw [mergeStep_of_present (h d (List.mem_cons_self d rest))]
      exact ih (fun x hx => h x (List.mem_cons_of_mem d hx))

/-- Claim C4: applying an inbound remote update through
`receive_iot_device_update` never emits an outbound event — the handler body
contains only the registry mutation and the UI refresh signal, no channel
publication, so a remote-sourced update is never echoed back. -/
theorem c4_no_echo (s : AppState) (u : DeviceUpdate) :
    (receiveIotDeviceUpdateApp s u).2 = [] := rfl

/-- Claim C2 counterexample: with the channel flag down (`connected := false`
after `disconnect_handler`), a device-delta publication attempt for a device
still marked `connected=true` is NOT dropped — `send_iot_device_update` never
consults `self.connected`, so the `sio.emit` call is made anyway (and the real
socket client raises on it).  The stated "no event is emitted" is false. -/
theorem c2_counterexample :
    devLamp.connected = true ∧
    (sendIotDeviceUpdateApp { devices := [devLamp], connected := false } devLamp).2 =
      [OutEvent.spoofAppIotDeviceUpdate (stripConnected devLamp)] :=
  ⟨rfl, rfl⟩

/-- Claim C2 (amended): an outbound device-delta publication is dropped exactly
when the `connected` field of the device itself is false; the channel-connected flag is
never consulted by `send_iot_device_update`, and the registry is unchanged in
every case. -/
theorem c2_publication_gate (s : AppState) (device : Device) :
    (sendIotDeviceUpdateApp s device).1 = s ∧
    ((sendIotDeviceUpdateApp s device).2 = [] ↔ device.connected = false) := by
  refine ⟨rfl, ?_⟩
  cases h : device.connected <;>
    simp [sendIotDeviceUpdateApp, sendIotDeviceUpdate, h]

/-- Claim C1 (code-bug evidence): with device 10.0.0.5 in the registry, a state
edit whose raw text is not valid JSON makes `json.loads` raise
`json.JSONDecodeError`, which the `except exceptions.ValidationError` clause
does not catch: the handler aborts with an uncaught exception and no display
revert (`EditResult.raised`), although the registry is unchanged and nothing is
published. -/
theorem c1_invalid_json_raises :
    handleStateEdit { devices := [devHeater], connected := true } "10.0.0.5" none =
      (EditResult.raised, { devices := [devHeater], connected := true }, []) := rfl

/-- Claim C5: merging the same remote snapshot twice yields the same registry
contents as merging it once — after the first merge every snapshot address is
present, so every iteration of the second merge finds a match and appends
nothing. -/
theorem c5_idempotent_merge (devices snapshot : List Device) :
    receiveConnectedIotDevices (receiveConnectedIotDevices devices snapshot) snapshot =
      receiveConnectedIotDevices devices snapshot :=
  merge_of_all_present (fun _ hd => mem_snapshot_addrs_merge hd)

theorem mergeStep_nodup {devices : List Device} (d : Device)
    (h : (addrs devices).Nodup) : (addrs (mergeStep devices d)).Nodup := by
  cases hs : searchDevices devices d.ipAddress with
  | some x => rw [mergeStep_of_found hs]; exact h
  | none =>
      rw [mergeStep_of_absent hs, addrs_append]
      have hnot : d.ipAddress ∉ addrs devices := by
        intro hmem
        obtain ⟨x, hx, hxa⟩ := mem_addrs_iff.mp hmem
        exact searchDevices_eq_none_iff.mp hs x hx hxa
      rw [List.nodup_append]
      refine ⟨h, List.nodup_singleton _, ?_⟩
      intro a ha hb
      have : a = d.ipAddress := by simpa [addrs] using hb
      exact hnot (this ▸ ha)

theorem merge_nodup {devices : List Device} (snapshot : List Device)
    (h : (addrs devices).Nodup) :
    (addrs (receiveConnectedIotDevices devices snapshot)).Nodup := by
  induction snapshot generalizing devices with
  | nil => exact h
  | cons x rest ih => exact ih (mergeStep_nodup x h)

/-- Claim C3: starting from a registry whose devices have pairwise distinct
addresses, every sequence of remote-snapshot merges (snapshots arbitrary,
repeated addresses allowed) preserves the distinctness — the registry never
holds two devices with the same address.  Within one snapshot the scan of
each iteration already sees the appends of the previous ones. -/
theorem c3_address_uniqueness (init : List Device) (snapshots : List (List Device))
    (h : (addrs init).Nodup) :
    (addrs (snapshots.foldl receiveConnectedIotDevices init)).Nodup := by
  induction snapshots generalizing init with
  | nil => exact h
  | cons s rest ih => exact ih _ (merge_nodup s h)

theorem c3_address_uniqueness_witness :
    (addrs [devHeater]).Nodup ∧
    (addrs (List.foldl receiveConnectedIotDevices [devHeater]
        [[devLamp, devLamp, devHeater]])).Nodup :=
  ⟨by decide,
   c3_address_uniqueness [devHeater] [[devLamp, devLamp, devHeater]] (by decide)⟩

theorem receiveIotDeviceUpdate_no_match {u : DeviceUpdate} {devices : List Device} :
    (∀ d ∈ devices, d.ipAddress ≠ u.ipAddress) →
      receiveIotDeviceUpdate devices u = devices := by
  induction devices with
  | nil => intro _; rfl
  | cons x rest ih =>
      intro h
      have hne : (x.ipAddress == u.ipAddress) = false := by
        simpa using h x (List.mem_cons_self x rest)
      simp only [receiveIotDeviceUpdate, hne, Bool.false_eq_true, if_false,
        List.cons.injEq, true_and]
      exact ih (fun y hy => h y (List.mem_cons_of_mem x hy))

theorem receiveIotDeviceUpdate_match {u : DeviceUpdate} (d : Device)
    (post : List Device) :
    ∀ pre : List Device, (∀ x ∈ pre, x.ipAddress ≠ u.ipAddress) →
      d.ipAddress = u.ipAddress →
      receiveIotDeviceUpdate (pre ++ d :: post) u = pre ++ applyUpdate u d :: post := by
  intro pre
  induction pre with
  | nil =>
      intro _ hd
      have hbeq : (d.ipAddress == u.ipAddress) = true := by simpa using hd
      simp [receiveIotDeviceUpdate, hbeq]
  | cons x rest ih =>
      intro hpre hd
      have hne : (x.ipAddress == u.ipAddress) = false := by
        simpa using hpre x (List.mem_cons_self x rest)
      simp only [List.cons_append, receiveIotDeviceUpdate, hne, Bool.false_eq_true,
        if_false, List.cons.injEq, true_and]
      exact ih (fun y hy => hpre y (List.mem_cons_of_mem x hy)) hd

/-- Claim C6: a remote update whose address matches an existing device
overwrites exactly the `state` and `status` fields of that device and forces
`connected := true`, leaving its `address`, `name`, `description` and
`faultStatus` (and every other device) untouched; when no address matches,
the registry is returned unchanged and no device is created. -/
theorem c6_remote_update_frame (devices : List Device) (u : DeviceUpdate) :
    ((∀ d ∈ devices, d.ipAddress ≠ u.ipAddress) →
        receiveIotDeviceUpdate devices u = devices) ∧
    (∀ (pre : List Device) (d : Device) (post : List Device),
        devices = pre ++ d :: post →
        (∀ x ∈ pre, x.ipAddress ≠ u.ipAddress) →
        d.ipAddress = u.ipAddress →
        receiveIotDeviceUpdate devices u =
          pre ++ { d with state := u.state, status := u.status,
                          connected := true } :: post) := by
  refine ⟨fun h => receiveIotDeviceUpdate_no_match h, ?_⟩
  intro pre d post hdev hpre hd
  subst hdev
  exact receiveIotDeviceUpdate_match d post pre hpre hd

/-- A concrete inbound update for 10.0.0.5. -/
def upd5 : DeviceUpdate :=
  { ipAddress := "10.0.0.5"
    state := JValue.arr [JValue.obj
      [("fieldName", JValue.str "temp"), ("datatype", JValue.str "number"),
       ("value", JValue.num 25)]]
    status := "On" }

/-- A concrete inbound update naming an address absent from the registry. -/
def updUnknown : DeviceUpdate :=
  { ipAddress := "10.9.9.9", state := JValue.arr [], status := "On" }

theorem c6_remote_update_frame_witness :
    receiveIotDeviceUpdate [devLamp, devHeater] upd5 =
      [devLamp, { devHeater with state := upd5.state, status := upd5.status,
                                 connected := true }] ∧
    receiveIotDeviceUpdate [devLamp, devHeater] updUnknown = [devLamp, devHeater] :=
  ⟨(c6_remote_update_frame [devLamp, devHeater] upd5).2 [devLamp] devHeater []
      rfl (by decide) rfl,
   (c6_remote_update_frame [devLamp, devHeater] updUnknown).1 (by decide)⟩

/-- Claim C9: the bulk-announcement payload consists of copies of exactly the
devices with `connected=false`, each stripped of the `connected` field (the
wire record type `WireDevice` carries no such field), and the registry is not
modified by the computation. -/
theorem c9_snapshot_unconnected (devices : List Device) :
    (∀ w ∈ snapshotUnconnected devices,
        ∃ d ∈ devices, d.connected = false ∧ w = stripConnected d) ∧
    (∀ d ∈ devices, d.connected = false →
        stripConnected d ∈ snapshotUnconnected devices) ∧
    (∀ s : AppState, (sendUnconnectedIotDevices s).1 = s) := by
  refine ⟨?_, ?_, ?_⟩
  · intro w hw
    simp only [snapshotUnconnected, List.mem_map, List.mem_filter] at hw
    obtain ⟨d, ⟨hd, hc⟩, hww⟩ := hw
    exact ⟨d, hd, by simpa using hc, hww.symm⟩
  · intro d hd hc
    simp only [snapshotUnconnected, List.mem_map]
    exact ⟨d, List.mem_filter.mpr ⟨hd, by simp [hc]⟩, rfl⟩
  · intro s
    by_cases h : s.connected <;> simp [sendUnconnectedIotDevices, h]

theorem c9_snapshot_unconnected_witness :
    stripConnected devHeater ∈ snapshotUnconnected [devLamp, devHeater] :=
  (c9_snapshot_unconnected [devLamp, devHeater]).2.1 devHeater (by simp) rfl

theorem lookupField_setField_self {fields : List (String × JValue)} {key : String}
    {v0 : JValue} (h : lookupField fields key = some v0) (v : JValue) :
    lookupField (setField fields key v) key = some v := by
  induction fields with
  | nil => simp [lookupField] at h
  | cons p rest ih =>
      by_cases hk : (p.1 == key) = true
      · simp [lookupField, setField, hk]
      · have hk' : (p.1 == key) = false := by
          cases hb : (p.1 == key) with
          | true => exact absurd hb hk
          | false => rfl
        simp only [lookupField, setField, List.map_cons, hk', Bool.false_eq_true,
          if_false] at h ⊢
        exact ih h

/-- Claim C7 (amended): boolean coercion happens on the bulk-load ingestion
path: the state stored by `read_unconnected_iot_devices` is the parsed array
with every entry passed through the coercion, and coercion turns the `value`
of every entry carrying `datatype="boolean"` and a `value` key into the
boolean `bool(value)` — a genuine boolean at rest whatever literal form the
value arrived in.  (The remote snapshot and remote update paths perform no
such coercion; see the counterexample.) -/
theorem c7_bulk_boolean_coercion (r : CsvRow) (items : List JValue)
    (h : r.state = JValue.arr items) :
    (readDevice r).state = JValue.arr (items.map coerceStateEntry) ∧
    (∀ fields v0, isBooleanDatatype fields = true →
        lookupField fields "value" = some v0 →
        coerceStateEntry (JValue.obj fields) =
          JValue.obj (setField fields "value" (JValue.bool (truthy v0))) ∧
        lookupField (setField fields "value" (JValue.bool (truthy v0))) "value" =
          some (JValue.bool (truthy v0))) := by
  constructor
  · simp [readDevice, coerceState, h]
  · intro fields v0 hb hv
    exact ⟨by simp [coerceStateEntry, hb, hv], lookupField_setField_self hv _⟩

/-- A bulk-load state entry whose boolean-typed value arrives as the text
"false" (Python `bool("false")` is `True`: any non-empty string is truthy). -/
def boolRowEntry : List (String × JValue) :=
  [("fieldName", JValue.str "on"), ("datatype", JValue.str "boolean"),
   ("value", JValue.str "false")]

/-- A CSV row carrying `boolRowEntry` in its state column. -/
def rowBool : CsvRow :=
  { ipAddress := "10.0.0.5"
    name := "Heater"
    description := "hall heater"
    state := JValue.arr [JValue.obj boolRowEntry]
    connected := "false"
    status := "Off"
    faultStatus := "Ok" }

theorem c7_bulk_boolean_coercion_witness :
    (readDevice rowBool).state =
      JValue.arr ([JValue.obj boolRowEntry].map coerceStateEntry) ∧
    coerceStateEntry (JValue.obj boolRowEntry) =
      JValue.obj (setField boolRowEntry "value"
        (JValue.bool (truthy (JValue.str "false")))) ∧
    lookupField (setField boolRowEntry "value"
        (JValue.bool (truthy (JValue.str "false")))) "value" =
      some (JValue.bool (truthy (JValue.str "false"))) :=
  ⟨(c7_bulk_boolean_coercion rowBool [JValue.obj boolRowEntry] rfl).1,
   ((c7_bulk_boolean_coercion rowBool [JValue.obj boolRowEntry] rfl).2
      boolRowEntry (JValue.str "false") rfl rfl).1,
   ((c7_bulk_boolean_coercion rowBool [JValue.obj boolRowEntry] rfl).2
      boolRowEntry (JValue.str "false") rfl rfl).2⟩

/-- A remote state entry whose boolean-typed value is the text "true". -/
def boolTextEntry : List (String × JValue) :=
  [("fieldName", JValue.str "on"), ("datatype", JValue.str "boolean"),
   ("value", JValue.str "true")]

/-- Claim C7 counterexample: the remote-update ingestion path stores the state
verbatim — after `receive_iot_device_update` the registry holds an entry with
`datatype="boolean"` whose value is still the string "true", not a boolean, so
the coercion does NOT hold across all ingestion paths. -/
theorem c7_counterexample :
    receiveIotDeviceUpdate [devHeater]
        { ipAddress := "10.0.0.5", state := JValue.arr [JValue.obj boolTextEntry],
          status := "On" } =
      [{ devHeater with state := JValue.arr [JValue.obj boolTextEntry],
                        status := "On", connected := true }] ∧
    isBooleanDatatype boolTextEntry = true ∧
    lookupField boolTextEntry "value" = some (JValue.str "true") ∧
    isBoolJ (JValue.str "true") = false :=
  ⟨rfl, rfl, rfl, rfl⟩

theorem isStringJ_iff {w : JValue} : isStringJ w = true ↔ ∃ s, w = JValue.str s := by
  cases w <;> simp [isStringJ]

theorem validEntry_iff (e : JValue) :
    validEntry e = true ↔
      ∃ fields, e = JValue.obj fields ∧
        (∃ s, lookupField fields "fieldName" = some (JValue.str s)) ∧
        (∃ s, lookupField fields "datatype" = some (JValue.str s)) ∧
        (∃ pv, lookupField fields "value" = some pv ∧ isPrimJ pv = true) := by
  cases e with
  | obj fields =>
      cases hf : lookupField fields "fieldName" with
      | none => simp [validEntry, hf]
      | some wf =>
        cases hd : lookupField fields "datatype" with
        | none => simp [validEntry, hf, hd]
        | some wd =>
          cases hv : lookupField fields "value" with
          | none => simp [validEntry, hf, hd, hv]
          | some wv =>
              simp [validEntry, hf, hd, hv, isStringJ_iff, Bool.and_eq_true,
                and_assoc]
  | str s => simp [validEntry]
  | num n => simp [validEntry]
  | bool b => simp [validEntry]
  | null => simp [validEntry]
  | arr items => simp [validEntry]

/-- Modelled from the amended wording of claim C8: a candidate is accepted
exactly when it is an array of objects each carrying AT LEAST the three typed
fields — `fieldName` a string, `datatype` a string, `value` a string, number
or boolean (never nested, null or an array); additional fields are permitted
because DEVICE_STATE_SCHEMA sets no `additionalProperties` restriction. -/
def AmendedValidatorContract (v : JValue) : Prop :=
  ∃ items, v = JValue.arr items ∧
    ∀ e ∈ items, ∃ fields, e = JValue.obj fields ∧
      (∃ s, lookupField fields "fieldName" = some (JValue.str s)) ∧
      (∃ s, lookupField fields "datatype" = some (JValue.str s)) ∧
      (∃ pv, lookupField fields "value" = some pv ∧ isPrimJ pv = true)

/-- Claim C8 (amended): the Validator accepts a candidate exactly when it is
an ordered sequence of entries each carrying at least the three typed fields
`fieldName` (string), `datatype` (string) and `value` (string, number or
boolean); entries may carry additional fields and are still accepted. -/
theorem c8_validator_contract (v : JValue) :
    validateDeviceState v = true ↔ AmendedValidatorContract v := by
  cases v with
  | arr items =>
      simp only [validateDeviceState, List.all_eq_true, AmendedValidatorContract]
      constructor
      · intro h
        exact ⟨items, rfl, fun e he => (validEntry_iff e).mp (h e he)⟩
      · rintro ⟨items', heq, hall⟩
        injection heq with heq'
        subst heq'
        exact fun e he => (validEntry_iff e).mpr (hall e he)
  | str s => simp [validateDeviceState, AmendedValidatorContract]
  | num n => simp [validateDeviceState, AmendedValidatorContract]
  | bool b => simp [validateDeviceState, AmendedValidatorContract]
  | null => simp [validateDeviceState, AmendedValidatorContract]
  | obj fields => simp [validateDeviceState, AmendedValidatorContract]

/-- Modelled from the words of claim C8 as stated: each entry carries exactly
the three fields `fieldName`, `datatype`, `value` — used only to compare the
stated contract with the schema the code enforces. -/
def claimedExactlyThreeFields (v : JValue) : Bool :=
  match v with
  | .arr items => items.all fun e =>
      match e with
      | .obj fields =>
          fields.length == 3 &&
          (match lookupField fields "fieldName" with
           | some w => isStringJ w
           | none => false) &&
          (match lookupField fields "datatype" with
           | some w => isStringJ w
           | none => false) &&
          (match lookupField fields "value" with
           | some w => isPrimJ w
           | none => false)
      | _ => false
  | _ => false

/-- A candidate entry with a fourth field `unit` besides the required three. -/
def extraFieldEntry : List (String × JValue) :=
  [("fieldName", JValue.str "temp"), ("datatype", JValue.str "number"),
   ("value", JValue.num 21), ("unit", JValue.str "C")]

/-- Claim C8 counterexample: DEVICE_STATE_SCHEMA sets no
`additionalProperties: false`, so jsonschema accepts an entry that carries a
fourth field — the candidate is accepted although it does not carry exactly
the three fields, refuting "accepted only if ... exactly the three fields". -/
theorem c8_counterexample :
    validateDeviceState (JValue.arr [JValue.obj extraFieldEntry]) = true ∧
    claimedExactlyThreeFields (JValue.arr [JValue.obj extraFieldEntry]) = false :=
  ⟨rfl, rfl⟩

theorem c8_validator_contract_witness :
    AmendedValidatorContract (JValue.arr [JValue.obj extraFieldEntry]) :=
  (c8_validator_contract (JValue.arr [JValue.obj extraFieldEntry])).mp rfl

theorem receiveConnected_cons (devices : List Device) (d : Device)
    (rest : List Device) :
    receiveConnectedIotDevices devices (d :: rest) =
      receiveConnectedIotDevices (mergeStep devices d) rest := rfl

theorem merge_append (devices snapshot : List Device) :
    ∃ t, receiveConnectedIotDevices devices snapshot = devices ++ t := by
  induction snapshot generalizing devices with
  | nil => exact ⟨[], (List.append_nil devices).symm⟩
  | cons d rest ih =>
      rw [receiveConnected_cons]
      cases hs : searchDevices devices d.ipAddress with
      | some x =>
          rw [mergeStep_of_found hs]
          exact ih devices
      | none =>
          rw [mergeStep_of_absent hs]
          obtain ⟨t, ht⟩ := ih (devices ++ [{ d with connected := true }])
          exact ⟨[{ d with connected := true }] ++ t,
            by rw [ht, List.append_assoc]⟩

theorem find?_append_some {α : Type} {p : α → Bool} {l1 l2 : List α} {x : α}
    (h : l1.find? p = some x) : (l1 ++ l2).find? p = some x := by
  rw [List.find?_append, h]
  rfl

theorem searchDevices_of_mem_nodup {devices : List Device} {d : Device} :
    d ∈ devices → (addrs devices).Nodup →
      searchDevices devices d.ipAddress = some d := by
  induction devices with
  | nil => intro h _; cases h
  | cons x rest ih =>
      intro hmem hnodup
      cases hmem with
      | head => simp [searchDevices]
      | tail _ hrest =>
          have hpair := List.nodup_cons.mp hnodup
          have hx : x.ipAddress ≠ d.ipAddress := by
            intro heq
            have hdm : d.ipAddress ∈ addrs rest := mem_addrs_iff.mpr ⟨d, hrest, rfl⟩
            have h1 : x.ipAddress ∉ addrs rest := hpair.1
            exact h1 (by rw [heq]; exact hdm)
          have hne : (x.ipAddress == d.ipAddress) = false := by simpa using hx
          simp only [searchDevices, List.find?_cons, hne]
          exact ih hrest hpair.2

/-- Claim C10: a remote snapshot naming the address of an existing
`connected=false` device leaves that device entirely unchanged — the merge
only ever appends, so the device is still there with `connected=false`; a
subsequently accepted local state edit to it therefore publishes no device
delta, and the device is still included in the next connect-time bulk
announcement. -/
theorem c10_stale_unconnected_device
    (devices snapshot : List Device) (d : Device)
    (hmem : d ∈ devices) (hconn : d.connected = false)
    (hnodup : (addrs devices).Nodup)
    (_hsnap : ∃ x ∈ snapshot, x.ipAddress = d.ipAddress) :
    (∃ t, receiveConnectedIotDevices devices snapshot = devices ++ t) ∧
    searchDevices (receiveConnectedIotDevices devices snapshot) d.ipAddress =
      some d ∧
    (∀ v, validateDeviceState v = true → ∀ c : Bool,
        (handleStateEdit
            { devices := receiveConnectedIotDevices devices snapshot,
              connected := c }
            d.ipAddress (some v)).2.2 = []) ∧
    stripConnected d ∈ snapshotUnconnected (receiveConnectedIotDevices devices snapshot) := by
  obtain ⟨t, ht⟩ := merge_append devices snapshot
  have hsearch : searchDevices (receiveConnectedIotDevices devices snapshot)
      d.ipAddress = some d := by
    rw [ht]
    exact find?_append_some (searchDevices_of_mem_nodup hmem hnodup)
  refine ⟨⟨t, ht⟩, hsearch, ?_, ?_⟩
  · intro v hv c
    simp only [handleStateEdit, hsearch, hv, if_true]
    simp [sendIotDeviceUpdate, hconn]
  · rw [ht]
    simp only [snapshotUnconnected, List.mem_map]
    exact ⟨d, List.mem_filter.mpr ⟨List.mem_append_left t hmem, by simp [hconn]⟩, rfl⟩

theorem c10_stale_unconnected_device_witness :
    stripConnected devHeater ∈
      snapshotUnconnected (receiveConnectedIotDevices [devHeater] [devHeater]) :=
  (c10_stale_unconnected_device [devHeater] [devHeater] devHeater
    (List.mem_cons_self devHeater []) rfl (by decide)
    ⟨devHeater, List.mem_cons_self devHeater [], rfl⟩).2.2.2
